import Mathlib

/-!
Shallow embedding of the audio playback server (`audio_playback_server`:
`manager.py` and the tool handler of `server.py`).

Modelling conventions:
* Python `str` values are Lean `String`s; the character-level operations
  (`str.strip`, splitting on `/`, `pathlib` suffix handling) are re-implemented
  structurally over `List Char` so that every definition evaluates by `decide`.
* Filesystem paths are lists of path segments; an absolute path `/a/b` is
  `["a", "b"]`.  `Path.resolve()` on a non-existing path is lexical
  normalisation (no symlinks in the model): `..` pops a segment, popping above
  the root stays at the root.
* `subprocess.Popen` handles are process ids drawn from a counter
  (`next_pid`); Python object identity (`is`) becomes equality of pids, and a
  fresh `Popen` object is never identical to an earlier one.
* Wall-clock time (`time.time() * 1000`, truncated to `int`) is an `Int`
  passed in by the caller of each operation.
* The filesystem and the spawn outcome are an explicit environment `Env`:
  which resolved paths exist, and whether `subprocess.Popen` succeeds, raises
  `FileNotFoundError`, or raises some other exception.
* A Python function that can raise `ValueError` returns `Except String`;
  the `String` is the exception's message.
-/

namespace AudioPlayback

/-- Python's whitespace class for `str.strip()` (ASCII part). -/
def pyIsSpace (c : Char) : Bool :=
  c = ' ' || c = '\t' || c = '\n' || c = '\r' || c = '\x0b' || c = '\x0c'

/-- Python `str.strip()`: drop whitespace from both ends. -/
def pyStrip (s : String) : String :=
  String.mk (((s.data.dropWhile pyIsSpace).reverse.dropWhile pyIsSpace).reverse)

/-- Split a character list on `/`, keeping empty pieces (filtered later as
`pathlib` does when parsing a path). -/
def splitSlashAux : List Char → List Char → List String
  | [], acc => [String.mk acc.reverse]
  | c :: rest, acc =>
    if c = '/' then String.mk acc.reverse :: splitSlashAux rest []
    else splitSlashAux rest (c :: acc)

/-- The components `pathlib.PurePosixPath` keeps: empty pieces and `.` are
dropped at parse time, `..` is kept. -/
def pathParts (s : String) : List String :=
  (splitSlashAux s.data []).filter (fun p => !(p == "") && !(p == "."))

/-- `PurePosixPath.is_absolute()` on POSIX: the string starts with `/`. -/
def is_absolute (s : String) : Bool :=
  s.data.head? = some '/'

/-- Position (0-based, counted from the end) of the last `.` of a name, by
walking the reversed character list. -/
def dotPosFromEnd : List Char → Option Nat
  | [] => none
  | c :: rest => if c = '.' then some 0 else (dotPosFromEnd rest).map (· + 1)

/-- `PurePosixPath.suffix ≠ ""`: the final component `name` has a dot at index
`i` with `0 < i < len - 1` (`name.rfind` semantics). -/
def hasPySuffix (name : String) : Bool :=
  match dotPosFromEnd name.data.reverse with
  | none => false
  | some j => decide (0 < j) && decide (j + 1 < name.data.length)

/-- Lexical step of `Path.resolve()`: `..` pops a segment (staying put at the
filesystem root), anything else is appended.  `.` was dropped at parse time but
is skipped here as well for safety. -/
def resolveStep (acc : List String) (seg : String) : List String :=
  if seg = ".." then acc.dropLast
  else if seg = "." then acc
  else acc ++ [seg]

/-- `Path.resolve()` of an absolute path given as segments (no symlinks in the
model). -/
def resolveParts (parts : List String) : List String :=
  parts.foldl resolveStep []

/-- `str(path)` of an absolute path given as segments. -/
def render_path (segs : List String) : String :=
  "/" ++ String.intercalate "/" segs

/-- `AudioPlaybackConfig` (config.py), restricted to the fields the manager
reads.  `root_dir` is the canonical absolute root directory as segments
(config loading resolves it). -/
structure AudioPlaybackConfig where
  root_dir : List String
  output_device : String
  default_format : String := "wav"
  ffplay_path : String := "ffplay"
  deriving DecidableEq, Repr

/-- `AudioPlaybackManager._normalize_filename`.  Returns the normalised
posix-style relative path and the resolved absolute path (as segments), or the
message of the raised `ValueError`. -/
def normalize_filename (cfg : AudioPlaybackConfig) (filename : String) :
    Except String (String × List String) :=
  let stripped := pyStrip filename
  if stripped = "" then
    Except.error "Filename is required for playback."
  else if is_absolute stripped then
    Except.error "Filename must be a relative path under AUDIO_ROOT_DIR."
  else
    let parts := pathParts stripped
    match parts.getLast? with
    | none =>
      -- `Path('.').with_suffix(...)` raises `ValueError` (empty name).
      Except.error "Path has an empty name."
    | some name =>
      let name2 := if hasPySuffix name then name else name ++ "." ++ cfg.default_format
      let parts2 := parts.dropLast ++ [name2]
      let normalized_relative := String.intercalate "/" parts2
      let resolved := resolveParts (cfg.root_dir ++ parts2)
      let root_resolved := resolveParts cfg.root_dir
      if root_resolved.isPrefixOf resolved then
        Except.ok (normalized_relative, resolved)
      else
        Except.error "Filename must remain inside AUDIO_ROOT_DIR."

instance {ε α : Type} [DecidableEq ε] [DecidableEq α] :
    DecidableEq (Except ε α) := fun x y =>
  match x, y with
  | Except.error a, Except.error b =>
    if h : a = b then isTrue (by rw [h])
    else isFalse (fun hh => by injection hh; contradiction)
  | Except.ok a, Except.ok b =>
    if h : a = b then isTrue (by rw [h])
    else isFalse (fun hh => by injection hh; contradiction)
  | Except.error _, Except.ok _ => isFalse (fun hh => by injection hh)
  | Except.ok _, Except.error _ => isFalse (fun hh => by injection hh)

/-- The path-escape condition of `_normalize_filename` (rule 5 of the spec's
path resolver): after stripping, parsing and extension inference, the
canonical resolved path is neither the canonical root nor a descendant of
it. -/
def escapes_root (cfg : AudioPlaybackConfig) (filename : String) : Bool :=
  let stripped := pyStrip filename
  match (pathParts stripped).getLast? with
  | none => false
  | some name =>
    let name2 := if hasPySuffix name then name else name ++ "." ++ cfg.default_format
    let parts2 := (pathParts stripped).dropLast ++ [name2]
    !(resolveParts cfg.root_dir).isPrefixOf (resolveParts (cfg.root_dir ++ parts2))

/-- `PlaybackStatus = Literal["idle", "playing", "stopped", "error"]`. -/
inductive PlaybackStatus
  | idle
  | playing
  | stopped
  | error
  deriving DecidableEq, Repr

/-- The `PlaybackState` dataclass (all fields defaulted as in the source). -/
structure PlaybackState where
  status : PlaybackStatus := PlaybackStatus.idle
  current_file : Option String := none
  started_at_ms : Option Int := none
  start_offset_ms : Int := 0
  deriving DecidableEq, Repr

/-- `PlaybackState._position_estimate`, with the sampling wall-clock time
`now_ms` (`int(time.time() * 1000)`) passed in. -/
def position_estimate (s : PlaybackState) (now_ms : Int) : Option Int :=
  match s.started_at_ms with
  | none => none
  | some t =>
    if s.status ≠ PlaybackStatus.playing then none
    else
      let elapsed := now_ms - t
      if elapsed < 0 then some s.start_offset_ms
      else some (s.start_offset_ms + elapsed)

/-- The dictionary `PlaybackState.to_response` builds. -/
structure StateResponse where
  status : PlaybackStatus
  current_file : Option String
  started_at_ms : Option Int
  position_estimate_ms : Option Int
  deriving DecidableEq, Repr

/-- `PlaybackState.to_response`, sampled at wall-clock time `now_ms`. -/
def to_response (s : PlaybackState) (now_ms : Int) : StateResponse :=
  { status := s.status
    current_file := s.current_file
    started_at_ms := s.started_at_ms
    position_estimate_ms := position_estimate s now_ms }

/-- The mutable fields of `AudioPlaybackManager`: the state holder, the
`subprocess.Popen` handle (`_process`), the monitor task (`_monitor_task`,
recorded as the pid it is bound to), and the pid counter modelling the
freshness of `Popen` objects. -/
structure Manager where
  state : PlaybackState := {}
  process : Option Nat := none
  monitor_task : Option Nat := none
  next_pid : Nat := 0
  deriving DecidableEq, Repr

/-- A fresh `AudioPlaybackManager` (its `__init__`). -/
def initialManager : Manager := {}

/-- What `subprocess.Popen` does when `play` spawns the player: succeed,
raise `FileNotFoundError` (binary missing), or raise some other exception. -/
inductive SpawnOutcome
  | ok
  | binaryMissing
  | failed (msg : String)
  deriving DecidableEq, Repr

/-- The environment of a manager call: which resolved paths exist on disk
(`Path.exists`), and how `subprocess.Popen` behaves. -/
structure Env where
  files : List (List String)
  spawn : SpawnOutcome
  deriving DecidableEq, Repr

/-- The `(success, message, state)` tri-tuple every operation returns. -/
structure OpResult where
  success : Bool
  message : String
  state : StateResponse
  deriving DecidableEq, Repr

/-- `AudioPlaybackManager._stop_process`: terminate/kill the held process if
any, then clear the handle and cancel the bound monitor task. -/
def stop_process (m : Manager) : Manager :=
  match m.process with
  | none => m
  | some _ => { m with process := none, monitor_task := none }

/-- Three-digit zero-padded decimal rendering of `k < 1000`. -/
def pad3 (k : Nat) : String :=
  if k < 10 then "00" ++ toString k
  else if k < 100 then "0" ++ toString k
  else toString k

/-- The seek argument `f"{start_offset_ms / 1000:.3f}"`: seconds with exactly
three decimal digits.  The source divides in float arithmetic; for every
offset the program can meet (far below 2^43 ms) the rounded rendering equals
this exact decimal one. -/
def format_seconds (ms : Int) : String :=
  toString (ms / 1000) ++ "." ++ pad3 (ms % 1000).toNat

/-- `AudioPlaybackManager._build_ffplay_command`. -/
def build_ffplay_command (cfg : AudioPlaybackConfig) (file_path : List String)
    (loop : Bool) (start_offset_ms : Int) : List String :=
  [cfg.ffplay_path, "-nodisp", "-autoexit", "-vn", "-loglevel", "error"]
    ++ (if start_offset_ms > 0 then ["-ss", format_seconds start_offset_ms] else [])
    ++ (if loop then ["-loop", "0"] else [])
    ++ ["-device", cfg.output_device]
    ++ ["-i", render_path file_path]

/-- `AudioPlaybackManager.play`.  The first component is the returned
tri-tuple, or `Except.error` with the message of a `ValueError` that
propagates out of the manager; the second component is the manager when the
call returns (unchanged when the exception is raised). -/
def play (cfg : AudioPlaybackConfig) (env : Env) (m : Manager)
    (filename : String) (loop : Bool) (start_offset_ms : Int) (now_ms : Int) :
    Except String OpResult × Manager :=
  match normalize_filename cfg filename with
  | Except.error e => (Except.error e, m)
  | Except.ok (normalized_relative, resolved_path) =>
    -- the source returns early when `resolved_path.exists()` is false,
    -- before `_stop_process` runs
    if resolved_path ∈ env.files then
      let m1 := stop_process m
      match env.spawn with
      | SpawnOutcome.binaryMissing =>
        let m2 := { m1 with state := { status := PlaybackStatus.error } }
        (Except.ok
          { success := false
            message := "ffplay not found at '" ++ cfg.ffplay_path ++ "'."
            state := to_response m2.state now_ms }, m2)
      | SpawnOutcome.failed exc =>
        let m2 := { m1 with state := { status := PlaybackStatus.error } }
        (Except.ok
          { success := false
            message := "Failed to start playback: " ++ exc
            state := to_response m2.state now_ms }, m2)
      | SpawnOutcome.ok =>
        let pid := m1.next_pid
        let st : PlaybackState :=
          { status := PlaybackStatus.playing
            current_file := some normalized_relative
            started_at_ms := some now_ms
            start_offset_ms := start_offset_ms }
        let m2 : Manager :=
          { state := st
            process := some pid
            monitor_task := some pid
            next_pid := m1.next_pid + 1 }
        let message :=
          "Playing '" ++ normalized_relative ++ "' from "
            ++ toString start_offset_ms ++ " ms."
            ++ (if loop then " Looping until stopped." else "")
        (Except.ok
          { success := true
            message := message
            state := to_response st now_ms }, m2)
    else
      let m2 := { m with state := { status := PlaybackStatus.idle } }
      (Except.ok
        { success := false
          message := "File '" ++ normalized_relative
            ++ "' not found under AUDIO_ROOT_DIR."
          state := to_response m2.state now_ms }, m2)

/-- `AudioPlaybackManager.stop`. -/
def stop (m : Manager) (now_ms : Int) : OpResult × Manager :=
  match m.process with
  | none =>
    let m2 := { m with state := { status := PlaybackStatus.stopped } }
    ({ success := true
       message := "No playback to stop."
       state := to_response m2.state now_ms }, m2)
  | some _ =>
    let m1 := stop_process m
    let m2 := { m1 with state := { status := PlaybackStatus.stopped } }
    ({ success := true
       message := "Playback stopped."
       state := to_response m2.state now_ms }, m2)

/-- `AudioPlaybackManager.status`. -/
def status (m : Manager) (now_ms : Int) : OpResult × Manager :=
  let message :=
    if m.state.status = PlaybackStatus.stopped then "Playback stopped."
    else if m.state.status = PlaybackStatus.error then "Playback error encountered."
    else if m.state.status = PlaybackStatus.playing then "Currently playing."
    else "Idle."
  ({ success := true, message := message, state := to_response m.state now_ms }, m)

/-- The reconciliation step of `AudioPlaybackManager._monitor_process` for the
monitor bound to process `pid`, run after that process exited: only if the
currently held handle is identical (`is`) to the bound one, clear it, and move
a still-`playing` status to `stopped`. -/
def monitor_process (pid : Nat) (m : Manager) : Manager :=
  if m.process = some pid then
    let m1 := { m with process := none }
    if m1.state.status = PlaybackStatus.playing then
      { m1 with state := { status := PlaybackStatus.stopped } }
    else m1
  else m

/-- The action argument of the `audio_playback` tool (server.py). -/
inductive ToolAction
  | play
  | stop
  | status
  deriving DecidableEq, Repr

/-- The `audio_playback` tool handler of server.py: argument pre-checks, the
dispatch to the manager, and the `except ValueError` recovery. -/
def audio_playback (cfg : AudioPlaybackConfig) (env : Env) (action : ToolAction)
    (filename : Option String) (loop : Bool) (start_offset_ms : Int)
    (m : Manager) (now_ms : Int) : OpResult × Manager :=
  if action = ToolAction.play ∧ (filename = none ∨ pyStrip (filename.getD "") = "") then
    ({ success := false
       message := "filename is required for 'play' action."
       state := to_response m.state now_ms }, m)
  else if start_offset_ms < 0 then
    ({ success := false
       message := "start_offset_ms must be non-negative."
       state := to_response m.state now_ms }, m)
  else
    match action with
    | ToolAction.play =>
      match play cfg env m (filename.getD "") loop start_offset_ms now_ms with
      | (Except.ok r, m2) => (r, m2)
      | (Except.error e, m2) =>
        ({ success := false
           message := e
           state := to_response m2.state now_ms }, m2)
    | ToolAction.stop => stop m now_ms
    | ToolAction.status => status m now_ms

/-- A concrete configuration used on concrete runs: root directory `/audio`,
default format `wav`. -/
def demoConfig : AudioPlaybackConfig :=
  { root_dir := ["audio"], output_device := "pulse_virtual" }

/-- A concrete environment: `/audio` holds `a.wav`, `b.wav` and `clip.wav`,
and spawning the player succeeds. -/
def demoEnv : Env :=
  { files := [["audio", "a.wav"], ["audio", "b.wav"], ["audio", "clip.wav"]]
    spawn := SpawnOutcome.ok }

/-- One serialized step of the manager: a `play`, `stop` or `status` call with
arbitrary arguments and environment, or the reconciliation of a monitor bound
to an arbitrary pid. -/
inductive ManagerStep : Manager → Manager → Prop
  | play (cfg : AudioPlaybackConfig) (env : Env) (filename : String)
      (loop : Bool) (start_offset_ms now_ms : Int) (m : Manager) :
      ManagerStep m (AudioPlayback.play cfg env m filename loop start_offset_ms now_ms).2
  | stop (now_ms : Int) (m : Manager) :
      ManagerStep m (AudioPlayback.stop m now_ms).2
  | status (now_ms : Int) (m : Manager) :
      ManagerStep m (AudioPlayback.status m now_ms).2
  | monitor (pid : Nat) (m : Manager) :
      ManagerStep m (monitor_process pid m)

/-- The managers reachable from a fresh `AudioPlaybackManager` by any
sequence of operations. -/
def Reachable (m : Manager) : Prop :=
  Relation.ReflTransGen ManagerStep initialManager m

/-- The spec's state invariant: `started_at` and `current_file` are both
present or both absent, and their presence is equivalent to a `playing`
status. -/
def StateInv (s : PlaybackState) : Prop :=
  s.started_at_ms.isSome = s.current_file.isSome ∧
  (s.started_at_ms.isSome = true ↔ s.status = PlaybackStatus.playing)

lemma stop_process_next_pid (m : Manager) :
    (stop_process m).next_pid = m.next_pid := by
  cases h : m.process <;> simp [stop_process, h]

lemma play_raise (cfg : AudioPlaybackConfig) (env : Env) (m : Manager)
    (f : String) (l : Bool) (o t : Int) (e : String)
    (h : normalize_filename cfg f = Except.error e) :
    play cfg env m f l o t = (Except.error e, m) := by
  simp [play, h]

lemma play_spawn_ok (cfg : AudioPlaybackConfig) (env : Env) (m : Manager)
    (f : String) (l : Bool) (o t : Int) (nrel : String) (rp : List String)
    (hn : normalize_filename cfg f = Except.ok (nrel, rp))
    (hf : rp ∈ env.files) (hs : env.spawn = SpawnOutcome.ok) :
    play cfg env m f l o t =
      (Except.ok
        { success := true
          message := "Playing '" ++ nrel ++ "' from " ++ toString o ++ " ms."
            ++ (if l then " Looping until stopped." else "")
          state := to_response
            { status := PlaybackStatus.playing
              current_file := some nrel
              started_at_ms := some t
              start_offset_ms := o } t },
       { state :=
           { status := PlaybackStatus.playing
             current_file := some nrel
             started_at_ms := some t
             start_offset_ms := o }
         process := some m.next_pid
         monitor_task := some m.next_pid
         next_pid := m.next_pid + 1 }) := by
  simp [play, hn, hf, hs, stop_process_next_pid]

lemma play_state_inv (cfg : AudioPlaybackConfig) (env : Env) (m : Manager)
    (f : String) (l : Bool) (o t : Int) (h : StateInv m.state) :
    StateInv (play cfg env m f l o t).2.state := by
  unfold play
  cases hn : normalize_filename cfg f with
  | error e => simpa using h
  | ok v =>
    obtain ⟨nrel, rp⟩ := v
    by_cases hf : rp ∈ env.files
    · simp only [hf, if_true]
      cases hs : env.spawn <;> simp [StateInv]
    · simp [hf, StateInv]

lemma stop_state_inv (m : Manager) (t : Int) : StateInv (stop m t).2.state := by
  cases h : m.process <;> simp [stop, stop_process, h, StateInv]

lemma monitor_state_inv (pid : Nat) (m : Manager) (h : StateInv m.state) :
    StateInv (monitor_process pid m).state := by
  unfold monitor_process
  by_cases hp : m.process = some pid
  · simp only [hp, if_true]
    by_cases hs : m.state.status = PlaybackStatus.playing
    · simp [hs, StateInv]
    · have hnone : m.state.started_at_ms = none := by
        rcases hh : m.state.started_at_ms with _ | t
        · rfl
        · exact absurd (h.2.mp (by simp [hh])) hs
      have hfile : m.state.current_file = none := by
        have h1 := h.1
        rw [hnone] at h1
        exact Option.not_isSome_iff_eq_none.mp (by simp [← h1])
      simp [hs, StateInv, hnone, hfile]
  · simpa [hp] using h

/-- Claim C5: the snapshot's `position_estimate` is absent whenever the status
is not `playing` or `started_at` is absent; otherwise, sampled at wall-clock
time `now`, it equals `start_offset + (now - started_at)` when
`now ≥ started_at`, and exactly `start_offset` when `now < started_at`. -/
theorem c5_position_estimate_spec (s : PlaybackState) (now t : Int) :
    ((s.status ≠ PlaybackStatus.playing ∨ s.started_at_ms = none) →
      (to_response s now).position_estimate_ms = none) ∧
    (s.status = PlaybackStatus.playing → s.started_at_ms = some t →
      (t ≤ now → (to_response s now).position_estimate_ms
          = some (s.start_offset_ms + (now - t))) ∧
      (now < t → (to_response s now).position_estimate_ms
          = some s.start_offset_ms)) := by
  constructor
  · rintro (h | h)
    · rcases hh : s.started_at_ms with _ | u <;>
        simp [to_response, position_estimate, hh, h]
    · simp [to_response, position_estimate, h]
  · intro hp hsome
    constructor
    · intro hle
      have : ¬ (now - t < 0) := by omega
      simp [to_response, position_estimate, hsome, hp, this]
    · intro hlt
      have : now - t < 0 := by omega
      simp [to_response, position_estimate, hsome, hp, this]

/-- Claim C6: in every reachable manager state, `started_at` and
`current_file` are both present or both absent, and their presence is
equivalent to `status = playing`. -/
theorem c6_reachable_state_invariant (m : Manager) (h : Reachable m) :
    StateInv m.state := by
  induction h with
  | refl => exact ⟨rfl, by simp [initialManager]⟩
  | tail _ hstep ih =>
    cases hstep with
    | play cfg env f l o t => exact play_state_inv cfg env _ f l o t ih
    | stop t => exact stop_state_inv _ t
    | status t => simpa [status] using ih
    | monitor pid => exact monitor_state_inv pid _ ih

/-- Witness for C6: the invariant instantiated at the fresh manager, which is
reachable by the empty sequence. -/
theorem c6_witness : StateInv initialManager.state :=
  c6_reachable_state_invariant initialManager Relation.ReflTransGen.refl

/-- Claim C7: `stop` always succeeds regardless of the prior manager state,
and doing it twice in a row yields success on both calls with both returned
snapshots reporting status `stopped`. -/
theorem c7_stop_idempotent (m : Manager) (t1 t2 : Int) :
    (stop m t1).1.success = true ∧
    (stop m t1).1.state.status = PlaybackStatus.stopped ∧
    (stop (stop m t1).2 t2).1.success = true ∧
    (stop (stop m t1).2 t2).1.state.status = PlaybackStatus.stopped := by
  cases h : m.process <;>
    simp [stop, stop_process, h, to_response, position_estimate]

/-- Claim C1 (evaluation at the failing input): start playing `a.wav`, which
spawns process 0, then call `play` on a missing file.  The call returns a
failed tri-tuple with an `idle` state, yet the handle to the previously
spawned process 0 is still held by the manager: the code resolves and
validates the file before stopping, and the missing-file early return skips
`_stop_process` entirely. -/
theorem c1_play_missing_keeps_previous_handle :
    (play demoConfig demoEnv initialManager "a" false 0 1000).2.process = some 0 ∧
    (play demoConfig demoEnv
        (play demoConfig demoEnv initialManager "a" false 0 1000).2
        "missing" false 0 2000).2.process = some 0 ∧
    (play demoConfig demoEnv
        (play demoConfig demoEnv initialManager "a" false 0 1000).2
        "missing" false 0 2000).1 =
      Except.ok
        { success := false
          message := "File 'missing.wav' not found under AUDIO_ROOT_DIR."
          state :=
            { status := PlaybackStatus.idle
              current_file := none
              started_at_ms := none
              position_estimate_ms := none } } := by
  decide

/-- Counterexample to claim C2: `"sub/../clip.wav"` contains a `..` segment,
yet `play` does not fail with `InvalidInput`: the path resolves back inside
the root, the call succeeds and the playback state changes to `playing`. -/
theorem c2_counterexample_dotdot_inside_root :
    (play demoConfig demoEnv initialManager "sub/../clip.wav" false 0 1000).1 =
      Except.ok
        { success := true
          message := "Playing 'sub/../clip.wav' from 0 ms."
          state :=
            { status := PlaybackStatus.playing
              current_file := some "sub/../clip.wav"
              started_at_ms := some 1000
              position_estimate_ms := some 0 } } ∧
    (play demoConfig demoEnv initialManager "sub/../clip.wav" false 0 1000).2.state
      ≠ initialManager.state := by
  decide

/-- Claim C2 as amended: for every filename that (after stripping) is
absolute, or whose canonical resolved path escapes the root (is neither the
root nor a descendant of it), `play` fails with `InvalidInput` — a raised
`ValueError`, not a tri-tuple — and the playback state is unchanged. -/
theorem c2_amended_invalid_path_raises
    (cfg : AudioPlaybackConfig) (env : Env) (m : Manager) (f : String)
    (l : Bool) (o t : Int)
    (h : is_absolute (pyStrip f) = true ∨
      (pyStrip f ≠ "" ∧ escapes_root cfg f = true)) :
    ∃ e, play cfg env m f l o t = (Except.error e, m) := by
  have hne : pyStrip f ≠ "" := by
    rcases h with h | h
    · intro h0
      rw [h0] at h
      simp [is_absolute] at h
    · exact h.1
  have hn : ∃ e, normalize_filename cfg f = Except.error e := by
    by_cases habs : is_absolute (pyStrip f) = true
    · exact ⟨"Filename must be a relative path under AUDIO_ROOT_DIR.",
        by unfold normalize_filename; simp [hne, habs]⟩
    · rcases h with h | ⟨-, hesc⟩
      · exact absurd h habs
      · simp only [escapes_root] at hesc
        cases hl : (pathParts (pyStrip f)).getLast? with
        | none => rw [hl] at hesc; simp at hesc
        | some name =>
          rw [hl] at hesc
          simp only [Bool.not_eq_true'] at hesc
          refine ⟨"Filename must remain inside AUDIO_ROOT_DIR.", ?_⟩
          unfold normalize_filename
          simp [hne, habs, hl, hesc]
  obtain ⟨e, he⟩ := hn
  exact ⟨e, play_raise cfg env m f l o t e he⟩

/-- Witness for C2 (amended): an absolute filename makes `play` raise and
leave the fresh manager unchanged. -/
theorem c2_witness :
    ∃ e, play demoConfig demoEnv initialManager "/etc/shadow" false 0 0 =
      (Except.error e, initialManager) :=
  c2_amended_invalid_path_raises demoConfig demoEnv initialManager
    "/etc/shadow" false 0 0 (Or.inl (by decide))

/-- Counterexample to claim C3: on the empty filename the manager's `play`
does not return a tri-tuple at all — the `ValueError` raised by
`_normalize_filename` propagates out of the manager. -/
theorem c3_counterexample_play_raises :
    play demoConfig demoEnv initialManager "" false 0 0 =
      (Except.error "Filename is required for playback.", initialManager) := by
  decide

/-- Claim C3 as amended: `stop` and `status` always return tri-tuples, but an
invalid filename makes the manager's `play` raise a `ValueError` instead of
returning a tri-tuple; the exception is caught one level up, in the server's
`audio_playback` tool handler, which reports it as a failed-operation result
with the exception's message and an unchanged state. -/
theorem c3_amended_server_recovers
    (cfg : AudioPlaybackConfig) (env : Env) (m : Manager) (f : String)
    (l : Bool) (o t : Int) (e : String)
    (hn : normalize_filename cfg f = Except.error e)
    (hs : pyStrip f ≠ "") (ho : 0 ≤ o) :
    play cfg env m f l o t = (Except.error e, m) ∧
    audio_playback cfg env ToolAction.play (some f) l o m t =
      ({ success := false, message := e, state := to_response m.state t }, m) := by
  have hp : play cfg env m f l o t = (Except.error e, m) :=
    play_raise cfg env m f l o t e hn
  refine ⟨hp, ?_⟩
  unfold audio_playback
  simp [hs, not_lt.mpr ho, hp]

/-- Witness for C3 (amended): the absolute filename `/a.wav` at offset 0. -/
theorem c3_witness :
    play demoConfig demoEnv initialManager "/a.wav" false 0 0 =
      (Except.error "Filename must be a relative path under AUDIO_ROOT_DIR.",
        initialManager) ∧
    audio_playback demoConfig demoEnv ToolAction.play (some "/a.wav") false 0
        initialManager 0 =
      ({ success := false
         message := "Filename must be a relative path under AUDIO_ROOT_DIR."
         state := to_response initialManager.state 0 }, initialManager) :=
  c3_amended_server_recovers demoConfig demoEnv initialManager "/a.wav"
    false 0 0 "Filename must be a relative path under AUDIO_ROOT_DIR."
    (by decide) (by decide) (by decide)

/-- Claim C4: after playback of file A is superseded by starting file B, the
later exit of A's process never changes the state.  A's process handle is
`m.next_pid`; after both plays succeed, reconciling A's monitor is a no-op
(the held handle is B's, which is a different process object), and the state
stays `playing` with `current_file = B`. -/
theorem c4_stale_monitor_no_overwrite
    (cfg : AudioPlaybackConfig) (env1 env2 : Env) (m : Manager)
    (fa fb : String) (la lb : Bool) (oa ob t1 t2 : Int)
    (na nb : String) (pa pb : List String)
    (hna : normalize_filename cfg fa = Except.ok (na, pa))
    (hfa : pa ∈ env1.files) (hsa : env1.spawn = SpawnOutcome.ok)
    (hnb : normalize_filename cfg fb = Except.ok (nb, pb))
    (hfb : pb ∈ env2.files) (hsb : env2.spawn = SpawnOutcome.ok) :
    (play cfg env1 m fa la oa t1).2.process = some m.next_pid ∧
    (play cfg env2 (play cfg env1 m fa la oa t1).2 fb lb ob t2).2.state.status
      = PlaybackStatus.playing ∧
    (play cfg env2 (play cfg env1 m fa la oa t1).2 fb lb ob t2).2.state.current_file
      = some nb ∧
    monitor_process m.next_pid
        (play cfg env2 (play cfg env1 m fa la oa t1).2 fb lb ob t2).2
      = (play cfg env2 (play cfg env1 m fa la oa t1).2 fb lb ob t2).2 := by
  rw [play_spawn_ok cfg env1 m fa la oa t1 na pa hna hfa hsa,
    play_spawn_ok cfg env2 _ fb lb ob t2 nb pb hnb hfb hsb]
  simp [monitor_process]

/-- Witness for C4: play `a` then `b` in the demo environment; the stale
monitor of process 0 does not touch the manager. -/
theorem c4_witness :
    (play demoConfig demoEnv initialManager "a" false 0 1000).2.process
      = some initialManager.next_pid ∧
    (play demoConfig demoEnv
        (play demoConfig demoEnv initialManager "a" false 0 1000).2
        "b" false 0 2000).2.state.status = PlaybackStatus.playing ∧
    (play demoConfig demoEnv
        (play demoConfig demoEnv initialManager "a" false 0 1000).2
        "b" false 0 2000).2.state.current_file = some "b.wav" ∧
    monitor_process initialManager.next_pid
        (play demoConfig demoEnv
          (play demoConfig demoEnv initialManager "a" false 0 1000).2
          "b" false 0 2000).2
      = (play demoConfig demoEnv
          (play demoConfig demoEnv initialManager "a" false 0 1000).2
          "b" false 0 2000).2 :=
  c4_stale_monitor_no_overwrite demoConfig demoEnv demoEnv initialManager
    "a" "b" false false 0 0 1000 2000 "a.wav" "b.wav"
    ["audio", "a.wav"] ["audio", "b.wav"]
    (by decide) (by decide) (by decide) (by decide) (by decide) (by decide)

/-- Claim C8: the argv built for the external player is, in order, the
configured binary; the flags disabling video display, auto-exiting at end of
stream and suppressing non-error logs; a seek flag with the offset in seconds
at millisecond precision exactly when the offset is nonzero; an infinite-loop
flag exactly when looping; the output device flag with the configured device;
and the resolved file path as the final argument. -/
theorem c8_ffplay_argv_contract (cfg : AudioPlaybackConfig)
    (file_path : List String) (loop : Bool) (off : Int) (h : 0 ≤ off) :
    build_ffplay_command cfg file_path loop off =
      [cfg.ffplay_path, "-nodisp", "-autoexit", "-vn", "-loglevel", "error"]
        ++ (if off ≠ 0 then ["-ss", format_seconds off] else [])
        ++ (if loop then ["-loop", "0"] else [])
        ++ ["-device", cfg.output_device]
        ++ ["-i", render_path file_path] ∧
    ∃ front, build_ffplay_command cfg file_path loop off
        = front ++ [render_path file_path] := by
  constructor
  · by_cases h0 : off = 0
    · subst h0
      simp [build_ffplay_command]
    · have hpos : off > 0 := lt_of_le_of_ne h (Ne.symm h0)
      simp [build_ffplay_command, hpos, h0]
  · refine ⟨[cfg.ffplay_path, "-nodisp", "-autoexit", "-vn", "-loglevel", "error"]
        ++ (if off > 0 then ["-ss", format_seconds off] else [])
        ++ (if loop then ["-loop", "0"] else [])
        ++ ["-device", cfg.output_device, "-i"], ?_⟩
    simp [build_ffplay_command]

/-- Witness for C8: looping playback of `/audio/a.wav` at offset 500 ms. -/
theorem c8_witness :
    build_ffplay_command demoConfig ["audio", "a.wav"] true 500 =
      [demoConfig.ffplay_path, "-nodisp", "-autoexit", "-vn", "-loglevel", "error"]
        ++ (if (500 : Int) ≠ 0 then ["-ss", format_seconds 500] else [])
        ++ (if true then ["-loop", "0"] else [])
        ++ ["-device", demoConfig.output_device]
        ++ ["-i", render_path ["audio", "a.wav"]] ∧
    ∃ front, build_ffplay_command demoConfig ["audio", "a.wav"] true 500
        = front ++ [render_path ["audio", "a.wav"]] :=
  c8_ffplay_argv_contract demoConfig ["audio", "a.wav"] true 500 (by decide)

/-- Claim C9: for every valid relative filename whose resolved path does not
exist, `play` returns `success = false`, a message containing `not found`,
and a snapshot with status `idle`, no `current_file` and no `started_at`. -/
theorem c9_missing_file_result
    (cfg : AudioPlaybackConfig) (env : Env) (m : Manager) (f : String)
    (l : Bool) (o t : Int) (nrel : String) (rp : List String)
    (hn : normalize_filename cfg f = Except.ok (nrel, rp))
    (hne : rp ∉ env.files) :
    play cfg env m f l o t =
      (Except.ok
        { success := false
          message := "File '" ++ nrel ++ "' not found under AUDIO_ROOT_DIR."
          state :=
            { status := PlaybackStatus.idle
              current_file := none
              started_at_ms := none
              position_estimate_ms := none } },
       { m with state := { status := PlaybackStatus.idle } }) ∧
    ∃ pre post,
      ("File '" ++ nrel ++ "' not found under AUDIO_ROOT_DIR.").data
        = pre ++ ("not found" : String).data ++ post := by
  constructor
  · simp [play, hn, hne, to_response, position_estimate]
  · refine ⟨("File '" ++ nrel ++ "' ").data, (" under AUDIO_ROOT_DIR." : String).data, ?_⟩
    have hsplit : ("' not found under AUDIO_ROOT_DIR." : String).data
        = ("' " : String).data ++ ("not found" : String).data
            ++ (" under AUDIO_ROOT_DIR." : String).data := by decide
    simp [String.data_append, hsplit]

/-- Witness for C9: playing the missing `missing` in the demo environment. -/
theorem c9_witness :
    play demoConfig demoEnv initialManager "missing" false 0 1000 =
      (Except.ok
        { success := false
          message := "File '" ++ "missing.wav" ++ "' not found under AUDIO_ROOT_DIR."
          state :=
            { status := PlaybackStatus.idle
              current_file := none
              started_at_ms := none
              position_estimate_ms := none } },
       { initialManager with state := { status := PlaybackStatus.idle } }) ∧
    ∃ pre post,
      ("File '" ++ "missing.wav" ++ "' not found under AUDIO_ROOT_DIR.").data
        = pre ++ ("not found" : String).data ++ post :=
  c9_missing_file_result demoConfig demoEnv initialManager "missing"
    false 0 1000 "missing.wav" ["audio", "missing.wav"] (by decide) (by decide)

/-- Claim C10: whenever `play` returns a tri-tuple, the success flag is true
iff the snapshot's status is `playing`; on success the snapshot's
`current_file` is the normalised posix-style relative path produced by
`_normalize_filename` (default extension appended when the input had none)
and the recorded `start_offset` is the given offset; on failure the status is
`idle` or `error`. -/
theorem c10_play_tri_tuple_spec
    (cfg : AudioPlaybackConfig) (env : Env) (m : Manager) (f : String)
    (l : Bool) (o t : Int) (r : OpResult) (m2 : Manager)
    (h : play cfg env m f l o t = (Except.ok r, m2)) :
    (r.success = true ↔ r.state.status = PlaybackStatus.playing) ∧
    (r.success = true →
      ∃ rp, normalize_filename cfg f
          = Except.ok (r.state.current_file.getD "", rp) ∧
        r.state.current_file.isSome = true ∧
        m2.state.start_offset_ms = o) ∧
    (r.success = false →
      r.state.status = PlaybackStatus.idle ∨
        r.state.status = PlaybackStatus.error) := by
  unfold play at h
  cases hn : normalize_filename cfg f with
  | error e =>
    rw [hn] at h
    simp at h
  | ok v =>
    obtain ⟨nrel, rp⟩ := v
    rw [hn] at h
    by_cases hf : rp ∈ env.files
    · simp only [hf, if_true] at h
      cases hs : env.spawn with
      | ok =>
        rw [hs] at h
        simp only [Prod.mk.injEq, Except.ok.injEq] at h
        obtain ⟨hr, hm⟩ := h
        subst hr
        subst hm
        refine ⟨by simp [to_response], fun _ => ⟨rp, ?_, by simp [to_response], rfl⟩,
          by simp [to_response]⟩
        simp [to_response]
      | binaryMissing =>
        rw [hs] at h
        simp only [Prod.mk.injEq, Except.ok.injEq] at h
        obtain ⟨hr, hm⟩ := h
        subst hr
        subst hm
        exact ⟨by simp [to_response], by simp, by simp [to_response]⟩
      | failed exc =>
        rw [hs] at h
        simp only [Prod.mk.injEq, Except.ok.injEq] at h
        obtain ⟨hr, hm⟩ := h
        subst hr
        subst hm
        exact ⟨by simp [to_response], by simp, by simp [to_response]⟩
    · simp only [hf, if_false] at h
      simp only [Prod.mk.injEq, Except.ok.injEq] at h
      obtain ⟨hr, hm⟩ := h
      subst hr
      subst hm
      exact ⟨by simp [to_response], by simp, by simp [to_response]⟩

/-- Witness for C10: the successful play of `a` at offset 500. -/
theorem c10_witness :
    (({ success := true
        message := "Playing 'a.wav' from 500 ms."
        state :=
          { status := PlaybackStatus.playing
            current_file := some "a.wav"
            started_at_ms := some 1000
            position_estimate_ms := some 500 } } : OpResult).success = true ↔
      ({ success := true
         message := "Playing 'a.wav' from 500 ms."
         state :=
           { status := PlaybackStatus.playing
             current_file := some "a.wav"
             started_at_ms := some 1000
             position_estimate_ms := some 500 } } : OpResult).state.status
        = PlaybackStatus.playing) ∧
    (({ success := true
        message := "Playing 'a.wav' from 500 ms."
        state :=
          { status := PlaybackStatus.playing
            current_file := some "a.wav"
            started_at_ms := some 1000
            position_estimate_ms := some 500 } } : OpResult).success = true →
      ∃ rp, normalize_filename demoConfig "a"
          = Except.ok
            (({ success := true
                message := "Playing 'a.wav' from 500 ms."
                state :=
                  { status := PlaybackStatus.playing
                    current_file := some "a.wav"
                    started_at_ms := some 1000
                    position_estimate_ms := some 500 } } : OpResult).state.current_file.getD "",
              rp) ∧
        ({ success := true
           message := "Playing 'a.wav' from 500 ms."
           state :=
             { status := PlaybackStatus.playing
               current_file := some "a.wav"
               started_at_ms := some 1000
               position_estimate_ms := some 500 } } : OpResult).state.current_file.isSome
          = true ∧
        ({ state :=
             { status := PlaybackStatus.playing
               current_file := some "a.wav"
               started_at_ms := some 1000
               start_offset_ms := 500 }
           process := some 0
           monitor_task := some 0
           next_pid := 1 } : Manager).state.start_offset_ms = 500) ∧
    (({ success := true
        message := "Playing 'a.wav' from 500 ms."
        state :=
          { status := PlaybackStatus.playing
            current_file := some "a.wav"
            started_at_ms := some 1000
            position_estimate_ms := some 500 } } : OpResult).success = false →
      ({ success := true
         message := "Playing 'a.wav' from 500 ms."
         state :=
           { status := PlaybackStatus.playing
             current_file := some "a.wav"
             started_at_ms := some 1000
             position_estimate_ms := some 500 } } : OpResult).state.status
          = PlaybackStatus.idle ∨
        ({ success := true
           message := "Playing 'a.wav' from 500 ms."
           state :=
             { status := PlaybackStatus.playing
               current_file := some "a.wav"
               started_at_ms := some 1000
               position_estimate_ms := some 500 } } : OpResult).state.status
          = PlaybackStatus.error) :=
  c10_play_tri_tuple_spec demoConfig demoEnv initialManager "a" false 500 1000
    _ _ (by decide)

end AudioPlayback
